import Mathlib

/-!
Verification development for the messaging-app repository (server.js + db.js).

The socket.io server is embedded shallowly: each socket event handler becomes a
pure Lean function from the in-memory server state (the `userSockets` map and
socket.io room subscriptions), the database contents, and the handler's inputs,
to the new state plus the list of emissions it performs.  External collaborators
(jwt.verify, bcrypt.compare, a throwing persistence call) are modelled as
explicit parameters.  Machine details that no handler observes (timestamps are
modelled as a monotone counter assigned by the store, exactly like the
authoritative `created_at`/`id` assignment in db.js) are kept abstract but
deterministic.
-/

namespace MessagingApp

abbrev UserId := Nat
abbrev SocketId := String

/-- A row of the `users` table (the columns created in db.js `init`).  `SELECT *`
(getUserByUsername) returns this full row, password hash included. -/
structure UserRow where
  id : UserId
  username : String
  password_hash : String
  avatar_color : String
  avatar_emoji : String
  avatar_image : Option String
  is_admin : Bool
  is_banned : Bool
deriving DecidableEq, Repr

/-- The column list selected by db.js `getUserById` / `getAllUsers`
(everything except the password hash); this is also what the server caches as
`socket.user` after authentication. -/
structure PublicUser where
  id : UserId
  username : String
  avatar_color : String
  avatar_emoji : String
  avatar_image : Option String
  is_admin : Bool
  is_banned : Bool
deriving DecidableEq, Repr

def toPublic (u : UserRow) : PublicUser :=
  { id := u.id, username := u.username, avatar_color := u.avatar_color,
    avatar_emoji := u.avatar_emoji, avatar_image := u.avatar_image,
    is_admin := u.is_admin, is_banned := u.is_banned }

/-- A row of the `messages` table. `created_at` is the store-assigned timestamp,
modelled as a monotone counter. -/
structure MessageRow where
  id : Nat
  sender_id : UserId
  room : String
  content : String
  image_data : Option String
  edited : Bool
  created_at : Nat
deriving DecidableEq, Repr

/-- One element of the grouped reaction view produced by db.js
`formatReactions`. -/
structure GroupedReaction where
  emoji : String
  count : Nat
  userIds : List UserId
deriving DecidableEq, Repr

/-- One row of the history payload built by db.js `getMessages` (message columns
joined with the sender's user columns, plus the grouped reactions). -/
structure HistoryRow where
  id : Nat
  content : String
  created_at : Nat
  sender_id : UserId
  edited : Bool
  image_data : Option String
  sender_username : String
  avatar_color : String
  avatar_emoji : String
  avatar_image : Option String
  reactions : List GroupedReaction
deriving DecidableEq, Repr

/-- The payload of the `message` broadcast assembled in the send_message
handler. -/
structure MessageData where
  id : Nat
  sender_id : UserId
  sender_username : String
  avatar_color : String
  avatar_emoji : String
  avatar_image : Option String
  room : String
  content : String
  image_data : Option String
  edited : Bool
  reactions : List GroupedReaction
  created_at : Nat
deriving DecidableEq, Repr

/-- The durable store: the three tables of db.js plus the id/timestamp
counters the store assigns on insert.  The `reactions` table rows are kept in
insertion order; the composite primary key (message_id, user_id, emoji) means a
triple occurs at most once, which the toggle discipline maintains. -/
structure DB where
  users : List UserRow
  messages : List MessageRow
  reactions : List (Nat × UserId × String)
  nextMessageId : Nat
  now : Nat
deriving DecidableEq, Repr

def DB.getUserById (db : DB) (uid : UserId) : Option PublicUser :=
  (db.users.find? (fun u => u.id == uid)).map toPublic

def DB.getUserByUsername (db : DB) (username : String) : Option UserRow :=
  db.users.find? (fun u => u.username == username)

def DB.getAllUsers (db : DB) : List PublicUser :=
  (List.insertionSort (fun a b => a.username ≤ b.username) db.users).map toPublic

def DB.setBanned (db : DB) (uid : UserId) (b : Bool) : DB :=
  { db with users := db.users.map (fun u => if u.id == uid then { u with is_banned := b } else u) }

/-- db.js `saveMessage`: INSERT returning the authoritative id and created_at. -/
def DB.saveMessage (db : DB) (senderId : UserId) (room content : String)
    (image : Option String) : DB × Nat × Nat :=
  ({ db with
      messages := db.messages ++
        [{ id := db.nextMessageId, sender_id := senderId, room := room,
           content := content, image_data := image, edited := false,
           created_at := db.now }],
      nextMessageId := db.nextMessageId + 1,
      now := db.now + 1 },
   db.nextMessageId, db.now)

/-- db.js `editMessage`: UPDATE ... WHERE id = $2 AND sender_id = $3 RETURNING
id, room; `none` when no row matched (not found or not the author). -/
def DB.editMessage (db : DB) (messageId uid : Nat) (content : String) : DB × Option String :=
  match db.messages.find? (fun m => m.id == messageId && m.sender_id == uid) with
  | none => (db, none)
  | some m =>
    ({ db with
        messages := db.messages.map (fun r =>
          if r.id == messageId && r.sender_id == uid then
            { r with content := content, edited := true }
          else r) },
     some m.room)

/-- db.js `deleteMessage`: admins delete by id alone, others by id + sender;
the reactions of a deleted message go with it (ON DELETE CASCADE).  `id` is the
primary key, so the rows removed are exactly those with id = messageId that the
predicate admits. -/
def DB.deleteMessage (db : DB) (messageId uid : Nat) (isAdmin : Bool) : DB × Option String :=
  let keep : MessageRow → Bool := fun m =>
    if isAdmin then !(m.id == messageId) else !(m.id == messageId && m.sender_id == uid)
  match db.messages.find? (fun m => !(keep m)) with
  | none => (db, none)
  | some m =>
    ({ db with
        messages := db.messages.filter keep,
        reactions := db.reactions.filter (fun t => !(t.1 == messageId)) },
     some m.room)

def DB.getMessageRoom (db : DB) (mid : Nat) : Option String :=
  (db.messages.find? (fun m => m.id == mid)).map (fun m => m.room)

/-- db.js `formatReactions`: group a flat list of (user_id, emoji) rows by
emoji in first-seen order, counting and collecting reactor ids. -/
def addReactionRow (acc : List GroupedReaction) (user_id : UserId) (emoji : String) :
    List GroupedReaction :=
  if acc.any (fun g => g.emoji == emoji) then
    acc.map (fun g =>
      if g.emoji == emoji then
        { g with count := g.count + 1, userIds := g.userIds ++ [user_id] }
      else g)
  else acc ++ [{ emoji := emoji, count := 1, userIds := [user_id] }]

def formatReactions (rows : List (Nat × UserId × String)) : List GroupedReaction :=
  rows.foldl (fun acc r => addReactionRow acc r.2.1 r.2.2) []

def DB.getReactionsForMessage (db : DB) (mid : Nat) : List GroupedReaction :=
  formatReactions (db.reactions.filter (fun t => t.1 == mid))

/-- db.js `toggleReaction`.  Its first statement is
`DELETE FROM reactions WHERE message_id = $1 AND user_id = $2 AND emoji = $3
RETURNING id`, but the `reactions` table created in `init` has only the columns
(message_id, user_id, emoji) — there is no `id` column — so PostgreSQL rejects
the statement with an undefined-column error (42703) at parse time, before
touching any row and regardless of the arguments.  The call therefore always
throws; the subsequent INSERT is never reached. -/
def DB.toggleReaction (_db : DB) (_messageId _userId : Nat) (_emoji : String) :
    Except String (DB × Bool) :=
  Except.error "column id does not exist"

/-- The behaviour db.js's own comment on toggleReaction documents
(`if the row exists, delete it (un-react); if not, insert it (react)`) and that
the spec describes; kept for comparison with the actual, always-throwing
implementation above. -/
def toggleReactionIntended (db : DB) (messageId userId : Nat) (emoji : String) : DB :=
  if db.reactions.any (fun t => t == (messageId, userId, emoji)) then
    { db with reactions := db.reactions.filter (fun t => !(t == (messageId, userId, emoji))) }
  else
    { db with reactions := db.reactions ++ [(messageId, userId, emoji)] }

/-- db.js `getMessages`: the 50 oldest messages of a room in created_at order,
inner-joined with the sender row, each carrying its grouped reactions. -/
def DB.getMessages (db : DB) (room : String) : List HistoryRow :=
  let ordered :=
    (List.insertionSort (fun a b => a.created_at ≤ b.created_at)
      (db.messages.filter (fun m => m.room == room))).take 50
  ordered.filterMap (fun m =>
    (db.users.find? (fun u => u.id == m.sender_id)).map (fun u =>
      { id := m.id, content := m.content, created_at := m.created_at,
        sender_id := m.sender_id, edited := m.edited, image_data := m.image_data,
        sender_username := u.username, avatar_color := u.avatar_color,
        avatar_emoji := u.avatar_emoji, avatar_image := u.avatar_image,
        reactions := formatReactions (db.reactions.filter (fun t => t.1 == m.id)) }))

/-! ## Server state, events and emissions -/

/-- The in-memory state of server.js: the `userSockets` map (JS Map from user
id to the Set of that user's live socket ids — `none` models a missing key) and
socket.io's per-socket room subscriptions. -/
structure ServerState where
  userSockets : UserId → Option (List SocketId)
  rooms : SocketId → List String

/-- The named events server.js emits, with the payload fields the code sends. -/
inductive Event where
  | authenticated (success : Bool) (isAdmin : Bool) (error : Option String)
  | banned
  | users_list (users : List PublicUser)
  | user_online (id : UserId) (username : String) (avatar_color : String)
      (avatar_emoji : String) (avatar_image : Option String)
  | user_offline (id : UserId)
  | message_history (room : String) (messages : List HistoryRow)
  | message (payload : MessageData)
  | message_edited (messageId : Nat) (content : String)
  | message_deleted (messageId : Nat)
  | reaction_updated (messageId : Nat) (reactions : List GroupedReaction)
  | error (text : String)
deriving DecidableEq, Repr

/-- One delivery instruction: `socket.emit` (to one socket), `io.to(room).emit`
(to every socket subscribed to the room) or `io.emit` (to every socket). -/
inductive Emit where
  | toSocket (sid : SocketId) (e : Event)
  | toRoom (room : String) (e : Event)
  | toAll (e : Event)
deriving DecidableEq, Repr

/-- Whether socket `sid` is among the receivers of event `e` given the
emissions of a handler and the subscription state in force at broadcast time. -/
def receives (st : ServerState) (emits : List Emit) (sid : SocketId) (e : Event) : Bool :=
  emits.any (fun em =>
    match em with
    | Emit.toSocket s e' => decide (s = sid) && decide (e' = e)
    | Emit.toRoom r e' => decide (e' = e) && decide (r ∈ st.rooms sid)
    | Emit.toAll e' => decide (e' = e))

/-- JS truthiness of a possibly-absent string: `undefined`, `null` and the
empty string are falsy. -/
def jsTruthy : Option String → Bool
  | none => false
  | some s => decide (s ≠ "")

/-- `x || null` on a possibly-absent string. -/
def jsOrNull (o : Option String) : Option String :=
  if jsTruthy o then o else none

/-- JS `String.prototype.split(sep)` for a single-character separator,
implemented structurally on the character list (String.splitOn recurses on
substring positions, which the kernel cannot evaluate). -/
def splitOnChar (sep : Char) : List Char → List (List Char)
  | [] => [[]]
  | c :: cs =>
    if c = sep then [] :: splitOnChar sep cs
    else
      match splitOnChar sep cs with
      | h :: t => (c :: h) :: t
      | [] => [[c]]

/-- The WhiteSpace/LineTerminator characters JS trims in `Number(s)` and in
`String.prototype.trim()`: TAB LF VT FF CR SP NBSP, OGHAM SPACE, the U+2000
to U+200A spaces, LS PS, NNBSP, MMSP, IDEOGRAPHIC SPACE, and ZWNBSP. -/
def isJsWs (c : Char) : Bool :=
  c = ' ' || c = '\t' || c = '\n' || c = '\r' ||
  c.toNat = 0xB || c.toNat = 0xC || c.toNat = 0xA0 || c.toNat = 0x1680 ||
  (0x2000 ≤ c.toNat && c.toNat ≤ 0x200A) ||
  c.toNat = 0x2028 || c.toNat = 0x2029 || c.toNat = 0x202F || c.toNat = 0x205F ||
  c.toNat = 0x3000 || c.toNat = 0xFEFF

/-- JS `String.prototype.trim()`: strip whitespace from both ends. -/
def trimChars (l : List Char) : List Char :=
  ((l.dropWhile isJsWs).reverse.dropWhile isJsWs).reverse

def jsTrim (s : String) : String :=
  String.mk (trimChars s.data)

/-- Value of a digit in the given base (0-9, then a-z / A-Z), `none` when the
character is no digit of that base. -/
def digitVal (base : Nat) (c : Char) : Option Nat :=
  let n := c.toNat
  let v :=
    if 48 ≤ n && n ≤ 57 then some (n - 48)
    else if 97 ≤ n && n ≤ 122 then some (n - 87)
    else if 65 ≤ n && n ≤ 90 then some (n - 55)
    else none
  match v with
  | some d => if d < base then some d else none
  | none => none

/-- A non-empty all-digit string in the given base, as a natural. -/
def parseRadix (base : Nat) (l : List Char) : Option Nat :=
  if l.isEmpty then none
  else l.foldl (fun acc c => acc.bind (fun n => (digitVal base c).map (fun d => n * base + d)))
    (some 0)

/-- The value of a known-to-be-decimal-digit list. -/
def digitsToNat (l : List Char) : Nat :=
  l.foldl (fun n c => n * 10 + (c.toNat - 48)) 0

/-- The ExponentPart after `e`/`E`: an optionally signed non-empty digit run
that must consume the rest of the literal. -/
def parseExponent (l : List Char) : Option Int :=
  match l with
  | '+' :: r => (parseRadix 10 r).map Int.ofNat
  | '-' :: r => (parseRadix 10 r).map (fun n => -(n : Int))
  | r => (parseRadix 10 r).map Int.ofNat

/-- StrUnsignedDecimalLiteral (without `Infinity`): `digits [. digits] [exp]`
or `. digits [exp]`; returns the concatenated mantissa, the number of
fraction digits, and the exponent.  The literal's exact value is
mantissa * 10 ^ (exponent - fractionDigits). -/
def parseUnsignedDec (l : List Char) : Option (Nat × Nat × Int) :=
  let ip := l.takeWhile Char.isDigit
  let r1 := l.dropWhile Char.isDigit
  match r1 with
  | [] => if ip.isEmpty then none else some (digitsToNat ip, 0, 0)
  | '.' :: r2 =>
    let fp := r2.takeWhile Char.isDigit
    let r3 := r2.dropWhile Char.isDigit
    if ip.isEmpty && fp.isEmpty then none
    else
      match r3 with
      | [] => some (digitsToNat (ip ++ fp), fp.length, 0)
      | 'e' :: r4 => (parseExponent r4).map (fun e => (digitsToNat (ip ++ fp), fp.length, e))
      | 'E' :: r4 => (parseExponent r4).map (fun e => (digitsToNat (ip ++ fp), fp.length, e))
      | _ => none
  | 'e' :: r4 => if ip.isEmpty then none else (parseExponent r4).map (fun e => (digitsToNat ip, 0, e))
  | 'E' :: r4 => if ip.isEmpty then none else (parseExponent r4).map (fun e => (digitsToNat ip, 0, e))
  | _ => none

/-- Doubles represent every natural below 2^53 exactly; larger parses are not
modelled (see jsNumberNat). -/
def fitsDouble (v : Nat) : Option Nat :=
  if v < 9007199254740992 then some v else none

/-- Exact value of a parsed decimal literal as a natural: an integer when the
fraction-adjusted exponent is non-negative or the division comes out even. -/
def decToNat (m f : Nat) (e : Int) : Option Nat :=
  if (f : Int) ≤ e then
    fitsDouble (m * 10 ^ (e - (f : Int)).toNat)
  else
    let d := 10 ^ ((f : Int) - e).toNat
    if m % d == 0 then fitsDouble (m / d) else none

/-- JS `Number(s)`, computed with exact integer arithmetic over the full
StringNumericLiteral grammar: trim with the JS whitespace set, the empty
remainder is 0, `0x`/`0X`/`0b`/`0B`/`0o`/`0O` integer literals (unsigned, as
in JS), and optionally signed decimal literals with fraction and exponent
(`2.0`, `+2`, `2e0`, `.5e1`, `-0`).  `some n` is returned exactly when the
literal's mathematical value is the natural number n below 2^53, the range in
which doubles are exact (server-assigned ids are int4, far below); there
`Number(s) === n` holds precisely.  `none` covers every other outcome — NaN,
non-zero negatives, non-integers, infinities, and values at or beyond 2^53.
In the `none` region double rounding can still make `Number(s)` compare equal
to an id (a near-integer with hundreds of fraction digits, or an integer
beyond 2^53), so every theorem that relies on this parse confines itself to
the `some` region through a `dmIds room = (some a, some b)` hypothesis. -/
def jsNumberNat (s : String) : Option Nat :=
  let t := trimChars s.data
  match t with
  | [] => some 0
  | '0' :: 'x' :: r => (parseRadix 16 r).bind fitsDouble
  | '0' :: 'X' :: r => (parseRadix 16 r).bind fitsDouble
  | '0' :: 'b' :: r => (parseRadix 2 r).bind fitsDouble
  | '0' :: 'B' :: r => (parseRadix 2 r).bind fitsDouble
  | '0' :: 'o' :: r => (parseRadix 8 r).bind fitsDouble
  | '0' :: 'O' :: r => (parseRadix 8 r).bind fitsDouble
  | '+' :: r => (parseUnsignedDec r).bind (fun p => decToNat p.1 p.2.1 p.2.2)
  | '-' :: r =>
    (parseUnsignedDec r).bind (fun p =>
      match decToNat p.1 p.2.1 p.2.2 with
      | some 0 => some 0
      | _ => none)
  | _ => (parseUnsignedDec t).bind (fun p => decToNat p.1 p.2.1 p.2.2)

/-- `room.startsWith('dm:')`. -/
def startsWithDm (room : String) : Bool :=
  "dm:".data.isPrefixOf room.data

/-- `const [, id1, id2] = room.split(':').map(Number)` — the second and third
components of the split (missing components are undefined/NaN, i.e. `none`). -/
def dmIds (room : String) : Option Nat × Option Nat :=
  let parts := (splitOnChar ':' room.data).map String.mk
  ((parts.get? 1).bind jsNumberNat, (parts.get? 2).bind jsNumberNat)

/-- The membership test both guarded handlers perform on a `dm:`-prefixed room:
`socket.user.id !== id1 && socket.user.id !== id2` means drop; this is the
complement.  It coincides with the code exactly whenever both split components
lie in jsNumberNat's `some` region; theorems that quantify over room strings
carry a `dmIds room = (some a, some b)` hypothesis to stay in that region. -/
def dmMember (uid : UserId) (room : String) : Bool :=
  (dmIds room).1 == some uid || (dmIds room).2 == some uid

/-- JS `Set.add`: append if not already present. -/
def addSocket (l : List SocketId) (sid : SocketId) : List SocketId :=
  if sid ∈ l then l else l ++ [sid]

/-- `socket.join(room)`: add the room to the socket's subscription set. -/
def addRoom (l : List String) (room : String) : List String :=
  if room ∈ l then l else l ++ [room]

/-- The for-loop in send_message that joins every listed socket to `room`. -/
def joinAll (rs : SocketId → List String) (room : String) (l : List SocketId) :
    SocketId → List String :=
  l.foldl (fun f s => fun x => if x = s then addRoom (f s) room else f x) rs

/-! ## Socket event handlers -/

/-- The `authenticate` handler.  `jwt.verify` is external: a valid token yields
the embedded user id (`decodedId = some uid`), an invalid/forged token throws
(`none`, landing in the catch).  Result: new state, the value assigned to
`socket.user`, the emissions, and the sockets the handler force-closes — the
code never calls `socket.disconnect()` here, so that list is always empty. -/
def authenticate (st : ServerState) (db : DB) (sid : SocketId) (decodedId : Option UserId) :
    ServerState × Option PublicUser × List Emit × List SocketId :=
  match decodedId with
  | none =>
    (st, none, [Emit.toSocket sid (Event.authenticated false false (some "Invalid token"))], [])
  | some uid =>
    match db.getUserById uid with
    | none =>
      (st, none, [Emit.toSocket sid (Event.authenticated false false (some "Invalid token"))], [])
    | some user =>
      if user.is_banned then
        (st, none, [Emit.toSocket sid Event.banned], [])
      else
        let us0 : UserId → Option (List SocketId) :=
          if (st.userSockets user.id).isSome then st.userSockets
          else fun x => if x = user.id then some [] else st.userSockets x
        let us1 : UserId → Option (List SocketId) :=
          fun x => if x = user.id then some (addSocket ((us0 user.id).getD []) sid) else us0 x
        let rooms1 : SocketId → List String :=
          fun x => if x = sid then addRoom (st.rooms sid) "general" else st.rooms x
        ({ userSockets := us1, rooms := rooms1 }, some user,
         [Emit.toSocket sid (Event.authenticated true user.is_admin none),
          Emit.toAll (Event.user_online user.id user.username user.avatar_color
            user.avatar_emoji user.avatar_image),
          Emit.toSocket sid (Event.users_list db.getAllUsers)], [])

/-- The `get_messages` handler: drop when unauthenticated, drop silently when
the room is a dm room the caller is not encoded in, otherwise answer with the
room's history. -/
def get_messages (db : DB) (user : Option PublicUser) (sid : SocketId) (room : String) :
    List Emit :=
  match user with
  | none => []
  | some u =>
    if startsWithDm room && !(dmMember u.id room) then []
    else [Emit.toSocket sid (Event.message_history room (db.getMessages room))]

/-- The `join_room` handler: `if (socket.user) socket.join(room)` — no
authorization check of any kind on the room. -/
def join_room (st : ServerState) (user : Option PublicUser) (sid : SocketId) (room : String) :
    ServerState × List Emit :=
  match user with
  | none => (st, [])
  | some _ =>
    ({ st with rooms := fun x => if x = sid then addRoom (st.rooms sid) room else st.rooms x }, [])

/-- The `send_message` handler.  `dbThrows` models `db.saveMessage` throwing
(the catch only logs).  Guards in source order: authentication, text-or-image
presence, the 3,000,000-character image ceiling, then the dm membership check;
on success: persist, auto-join every live socket of the dm recipient, broadcast
the full record to the room. -/
def send_message (dbThrows : Bool) (st : ServerState) (db : DB) (user : Option PublicUser)
    (sid : SocketId) (room : String) (content imageData : Option String) :
    ServerState × DB × List Emit :=
  match user with
  | none => (st, db, [])
  | some u =>
    if !(jsTruthy (content.map jsTrim)) && !(jsTruthy imageData) then (st, db, [])
    else if jsTruthy imageData && decide ((imageData.getD "").length > 3000000) then
      (st, db, [Emit.toSocket sid (Event.error "Image is too large. Please use a smaller image.")])
    else if startsWithDm room && !(dmMember u.id room) then (st, db, [])
    else if dbThrows then (st, db, [])
    else
      let r := db.saveMessage u.id room (jsTrim (content.getD "")) (jsOrNull imageData)
      let md : MessageData :=
        { id := r.2.1, sender_id := u.id, sender_username := u.username,
          avatar_color := u.avatar_color, avatar_emoji := u.avatar_emoji,
          avatar_image := u.avatar_image, room := room,
          content := jsTrim (content.getD ""), image_data := jsOrNull imageData,
          edited := false, reactions := [], created_at := r.2.2 }
      let st' :=
        if startsWithDm room then
          let ids := dmIds room
          let recipient : Option Nat := if ids.1 = some u.id then ids.2 else ids.1
          match recipient with
          | some rcp =>
            { st with rooms := joinAll st.rooms room ((st.userSockets rcp).getD []) }
          | none => st
        else st
      (st', r.1, [Emit.toRoom room (Event.message md)])

/-- The `edit_message` handler.  `dbThrows` models `db.editMessage` throwing. -/
def edit_message (dbThrows : Bool) (st : ServerState) (db : DB) (user : Option PublicUser)
    (messageId : Nat) (content : Option String) : ServerState × DB × List Emit :=
  match user with
  | none => (st, db, [])
  | some u =>
    if !(jsTruthy (content.map jsTrim)) then (st, db, [])
    else if dbThrows then (st, db, [])
    else
      let r := db.editMessage messageId u.id (jsTrim (content.getD ""))
      match r.2 with
      | none => (st, r.1, [])
      | some room =>
        (st, r.1, [Emit.toRoom room (Event.message_edited messageId (jsTrim (content.getD "")))])

/-- The `delete_message` handler.  `dbThrows` models `db.deleteMessage`
throwing. -/
def delete_message (dbThrows : Bool) (st : ServerState) (db : DB) (user : Option PublicUser)
    (messageId : Nat) : ServerState × DB × List Emit :=
  match user with
  | none => (st, db, [])
  | some u =>
    if dbThrows then (st, db, [])
    else
      let r := db.deleteMessage messageId u.id u.is_admin
      match r.2 with
      | none => (st, r.1, [])
      | some room => (st, r.1, [Emit.toRoom room (Event.message_deleted messageId)])

/-- The `toggle_reaction` handler.  `db.toggleReaction` always throws (see its
definition); the catch logs, so the branch after the error is dead code. -/
def toggle_reaction (st : ServerState) (db : DB) (user : Option PublicUser)
    (messageId : Nat) (emoji : String) : ServerState × DB × List Emit :=
  match user with
  | none => (st, db, [])
  | some u =>
    match db.toggleReaction messageId u.id emoji with
    | Except.error _ => (st, db, [])
    | Except.ok r =>
      let reactions := r.1.getReactionsForMessage messageId
      match r.1.getMessageRoom messageId with
      | some room => (st, r.1, [Emit.toRoom room (Event.reaction_updated messageId reactions)])
      | none => (st, r.1, [])

/-- The `disconnect` handler: remove the socket from its identity's set; when
the set empties, drop the map entry and broadcast user_offline. -/
def disconnectHandler (st : ServerState) (user : Option PublicUser) (sid : SocketId) :
    ServerState × List Emit :=
  match user with
  | none => (st, [])
  | some u =>
    match st.userSockets u.id with
    | none => (st, [])
    | some socks =>
      let socks' := socks.erase sid
      if socks'.isEmpty then
        ({ st with userSockets := fun x => if x = u.id then none else st.userSockets x },
         [Emit.toAll (Event.user_offline u.id)])
      else
        ({ st with userSockets := fun x => if x = u.id then some socks' else st.userSockets x },
         [])

/-- Closing a list of connections of one identity one at a time, collecting the
emissions of each close separately. -/
def closeSeq (u : PublicUser) : ServerState → List SocketId → ServerState × List (List Emit)
  | st, [] => (st, [])
  | st, sid :: rest =>
    let r := disconnectHandler st (some u) sid
    let r' := closeSeq u r.1 rest
    (r'.1, r.2 :: r'.2)

/-! ## HTTP routes (login, admin ban) -/

inductive LoginResult where
  | badRequest
  | invalid
  | bannedResp
  | ok (id : UserId) (username : String)
deriving DecidableEq, Repr

/-- POST /api/login.  `compare` is bcrypt.compare(password, hash). -/
def login (db : DB) (compare : String → String → Bool) (username password : String) :
    LoginResult :=
  if username = "" ∨ password = "" then LoginResult.badRequest
  else
    match db.getUserByUsername username with
    | none => LoginResult.invalid
    | some user =>
      if user.is_banned then LoginResult.bannedResp
      else if !(compare password user.password_hash) then LoginResult.invalid
      else LoginResult.ok user.id user.username

inductive BanResponse where
  | forbidden
  | selfBan
  | notFound
  | ok (banned : Bool)
deriving DecidableEq, Repr

/-- One iteration of the ban route's disconnect loop: notify the socket, then
`s.disconnect()`, which fires the server's disconnect handler for it; the
socket id is recorded as force-closed. -/
def banStep (target : PublicUser) (acc : ServerState × List Emit × List SocketId)
    (sid : SocketId) : ServerState × List Emit × List SocketId :=
  let r := disconnectHandler acc.1 (some target) sid
  (r.1, acc.2.1 ++ [Emit.toSocket sid Event.banned] ++ r.2, acc.2.2 ++ [sid])

/-- POST /api/admin/ban/:userId (after requireAuth resolved `actorId` from the
bearer token).  requireAdmin gate, self-ban and not-found checks, then toggle
the banned flag; on the transition to banned, notify and force-disconnect every
live socket of the target; finally rebroadcast the roster. -/
def banRoute (st : ServerState) (db : DB) (actorId targetId : UserId) :
    ServerState × DB × List Emit × List SocketId × BanResponse :=
  match db.getUserById actorId with
  | none => (st, db, [], [], BanResponse.forbidden)
  | some actor =>
    if !actor.is_admin then (st, db, [], [], BanResponse.forbidden)
    else if targetId = actorId then (st, db, [], [], BanResponse.selfBan)
    else
      match db.getUserById targetId with
      | none => (st, db, [], [], BanResponse.notFound)
      | some target =>
        let newBanned := !target.is_banned
        let db' := db.setBanned targetId newBanned
        let fold :=
          if newBanned then
            ((st.userSockets targetId).getD []).foldl (banStep target)
              (st, ([] : List Emit), ([] : List SocketId))
          else (st, [], [])
        (fold.1, db', fold.2.1 ++ [Emit.toAll (Event.users_list db'.getAllUsers)],
         fold.2.2, BanResponse.ok newBanned)

/-! ## Sample states used by concrete witnesses and counterexamples -/

/-- Empty in-memory server state. -/
def emptyState : ServerState := ⟨fun _ => none, fun _ => []⟩

def alicePub : PublicUser := ⟨1, "alice", "#7289da", "", none, false, false⟩
def bobPub : PublicUser := ⟨2, "bob", "#7289da", "", none, false, false⟩
def modPub : PublicUser := ⟨3, "mod", "#000000", "", none, true, false⟩

/-- Two ordinary users, an admin, and one message sitting in the direct-message
room of users 1 and 2. -/
def sampleDb : DB :=
  ⟨[⟨1, "alice", "h1", "#7289da", "", none, false, false⟩,
    ⟨2, "bob", "h2", "#7289da", "", none, false, false⟩,
    ⟨3, "mod", "h3", "#000000", "", none, true, false⟩],
   [⟨1, 1, "dm:1:2", "hi", none, false, 0⟩], [], 2, 1⟩

/-- A base64 payload one character over the 3,000,000-character ceiling. -/
def bigImage : String := String.mk (List.replicate 3000001 'a')

theorem bigImage_length : bigImage.length = 3000001 := by
  have h : bigImage.length = (List.replicate 3000001 'a').length := rfl
  rw [h, List.length_replicate]

theorem bigImage_truthy : jsTruthy (some bigImage) = true := by
  have hne : bigImage ≠ "" := by
    intro h
    have hl := bigImage_length
    rw [h] at hl
    exact absurd hl (by decide)
  simp [jsTruthy, hne]

/-! ## C6 — send_message validation -/

/-- C6: an authenticated send with neither non-empty trimmed text nor an image
payload is rejected before persistence (store untouched, nothing emitted), and
a send whose image payload exceeds 3,000,000 characters gets a user-visible
error event and also leaves the store untouched with no broadcast; both hold
whether or not the store would have failed, since the guards run first. -/
theorem send_message_validation (dbThrows : Bool) (st : ServerState) (db : DB)
    (u : PublicUser) (sid : SocketId) (room : String) (content imageData : Option String) :
    (jsTruthy (content.map jsTrim) = false → jsTruthy imageData = false →
      send_message dbThrows st db (some u) sid room content imageData = (st, db, [])) ∧
    (jsTruthy imageData = true → (imageData.getD "").length > 3000000 →
      send_message dbThrows st db (some u) sid room content imageData =
        (st, db, [Emit.toSocket sid
          (Event.error "Image is too large. Please use a smaller image.")])) := by
  constructor
  · intro h1 h2
    simp [send_message, h1, h2]
  · intro h1 h2
    simp [send_message, h1, h2]

/-- Witness for C6 at concrete inputs: whitespace-only text with no image is
dropped; a 3,000,001-character image draws the error event. -/
theorem send_message_validation_witness :
    send_message false emptyState sampleDb (some alicePub) "s" "general" (some "   ") none =
      (emptyState, sampleDb, []) ∧
    send_message false emptyState sampleDb (some alicePub) "s" "general" none (some bigImage) =
      (emptyState, sampleDb,
       [Emit.toSocket "s" (Event.error "Image is too large. Please use a smaller image.")]) := by
  refine ⟨(send_message_validation false emptyState sampleDb alicePub "s" "general"
      (some "   ") none).1 (by decide) rfl,
    (send_message_validation false emptyState sampleDb alicePub "s" "general"
      none (some bigImage)).2 bigImage_truthy ?_⟩
  simp only [Option.getD_some, bigImage_length]
  decide

/-! ## C7 — reaction toggle -/

/-- C7: the claimed presence/absence toggle never executes.  The DELETE inside
db.toggleReaction says `RETURNING id`, but the reactions table has no `id`
column, so the store rejects every toggle before touching a row; the handler
catches the error, leaving the reaction table and the wire unchanged on every
input.  By contrast the toggle documented in db.js's own comment
(toggleReactionIntended) always changes the stored reaction set. -/
theorem toggle_reaction_always_noop :
    (∀ (st : ServerState) (db : DB) (u : PublicUser) (mid : Nat) (emoji : String),
      toggle_reaction st db (some u) mid emoji = (st, db, [])) ∧
    (∀ (db : DB) (mid uid : Nat) (emoji : String),
      toggleReactionIntended db mid uid emoji ≠ db) := by
  constructor
  · intro st db u mid emoji
    rfl
  · intro db mid uid emoji h
    unfold toggleReactionIntended at h
    by_cases hmem : db.reactions.any (fun t => t == (mid, uid, emoji)) = true
    · rw [if_pos hmem] at h
      have hr := congrArg DB.reactions h
      simp only at hr
      obtain ⟨x, hx1, hx2⟩ := List.any_eq_true.mp hmem
      have hx3 : x = (mid, uid, emoji) := by simpa using hx2
      have hmemL : (mid, uid, emoji) ∈ db.reactions := hx3 ▸ hx1
      rw [← hr] at hmemL
      have hcontra := (List.mem_filter.mp hmemL).2
      simp at hcontra
    · rw [if_neg hmem] at h
      have hr := congrArg DB.reactions h
      simp only at hr
      have : (mid, uid, emoji) ∈ db.reactions ++ [(mid, uid, emoji)] := by
        simp
      rw [hr] at this
      rw [List.any_eq_true] at hmem
      exact hmem ⟨(mid, uid, emoji), this, by simp⟩

/-! ## C8 — no fan-out without durable commit -/

/-- C8: when the persistence call throws, none of send_message, edit_message,
delete_message broadcasts anything: the store is left unchanged, edit and
delete emit nothing at all, and the only emission send can have produced is the
pre-persistence oversize-image validation error to the caller — never a
message, message_edited or message_deleted event.  Equivalently, a mutation
broadcast occurs only after its persistence call returned successfully. -/
theorem no_fanout_when_persistence_throws (st : ServerState) (db : DB)
    (user : Option PublicUser) (sid : SocketId) (room : String)
    (content imageData econtent : Option String) (mid emid : Nat) :
    (send_message true st db user sid room content imageData = (st, db, []) ∨
      send_message true st db user sid room content imageData =
        (st, db, [Emit.toSocket sid
          (Event.error "Image is too large. Please use a smaller image.")])) ∧
    edit_message true st db user emid econtent = (st, db, []) ∧
    delete_message true st db user mid = (st, db, []) := by
  refine ⟨?_, ?_, ?_⟩
  · cases user with
    | none => left; rfl
    | some u =>
      by_cases h1 : (!(jsTruthy (content.map jsTrim)) && !(jsTruthy imageData)) = true
      · left; simp [send_message, h1]
      · by_cases h2 :
          (jsTruthy imageData && decide ((imageData.getD "").length > 3000000)) = true
        · right; simp [send_message, h1, h2]
        · by_cases h3 : (startsWithDm room && !(dmMember u.id room)) = true
          · left; simp [send_message, h1, h2, h3]
          · left; simp [send_message, h1, h2, h3]
  · cases user with
    | none => rfl
    | some u =>
      by_cases h1 : jsTruthy (econtent.map jsTrim) = true
      · simp [edit_message, h1]
      · simp [edit_message, h1]
  · cases user with
    | none => rfl
    | some u => simp [delete_message]

/-! ## C1 — dm-room authorization -/

/-- C1 (amended): the silent-drop rule for a pairwise room key holds for
get_messages and send_message: for a room `dm:a:b` whose two encoded
components evaluate to the naturals a and b (the region where the Number
model agrees exactly with JS), an acting identity whose id is neither a nor b
gets get_messages answered with nothing, and send_message changes neither the
in-memory state nor the store and broadcasts nothing — its only possible
emission is the oversize-image validation error back to the caller, whose
check precedes the membership check.  (By contrast delete_message is gated by
ownership-or-admin, not by the room key: see the counterexample.) -/
theorem dm_silent_drop_get_send (dbThrows : Bool) (st : ServerState) (db : DB)
    (u : PublicUser) (sid : SocketId) (room : String) (content imageData : Option String)
    (a b : Nat) (hdm : startsWithDm room = true) (hids : dmIds room = (some a, some b))
    (ha : u.id ≠ a) (hb : u.id ≠ b) :
    get_messages db (some u) sid room = [] ∧
    send_message dbThrows st db (some u) sid room content imageData =
      (st, db,
       if jsTruthy imageData && decide ((imageData.getD "").length > 3000000) then
         [Emit.toSocket sid (Event.error "Image is too large. Please use a smaller image.")]
       else []) := by
  have hmem : dmMember u.id room = false := by
    simp only [dmMember, hids]
    simp [Ne.symm ha, Ne.symm hb]
  constructor
  · simp [get_messages, hdm, hmem]
  · by_cases h1 : (!(jsTruthy (content.map jsTrim)) && !(jsTruthy imageData)) = true
    · have hp := (Bool.and_eq_true _ _).mp h1
      have hC : jsTruthy (content.map jsTrim) = false := by simpa using hp.1
      have hI : jsTruthy imageData = false := by simpa using hp.2
      simp [send_message, hC, hI]
    · by_cases h2 :
        (jsTruthy imageData && decide ((imageData.getD "").length > 3000000)) = true
      · simp [send_message, h1, h2]
      · have h3 : (startsWithDm room && !(dmMember u.id room)) = true := by
          simp [hdm, hmem]
        simp [send_message, h1, h2, h3]

/-- Witness for C1 (amended) at a concrete input: user 3 against room
"dm:1:2" — history request answered with nothing, a well-formed text send
dropped without response. -/
theorem dm_silent_drop_get_send_witness :
    get_messages sampleDb (some modPub) "s3" "dm:1:2" = [] ∧
    send_message false emptyState sampleDb (some modPub) "s3" "dm:1:2" (some "hi") none =
      (emptyState, sampleDb, []) := by
  have h := dm_silent_drop_get_send false emptyState sampleDb modPub "s3" "dm:1:2"
    (some "hi") none 1 2 (by decide) (by decide) (by decide) (by decide)
  exact ⟨h.1, by simpa using h.2⟩

/-- C1 counterexample: the admin (id 3) is not one of the two ids encoded in
"dm:1:2", yet delete_message on the message stored in that room is not dropped:
it removes the message from the store and broadcasts message_deleted to the
room. -/
theorem admin_delete_foreign_dm_counterexample :
    dmMember modPub.id "dm:1:2" = false ∧
    (delete_message false emptyState sampleDb (some modPub) 1).2.2 =
      [Emit.toRoom "dm:1:2" (Event.message_deleted 1)] ∧
    (delete_message false emptyState sampleDb (some modPub) 1).2.1.messages = [] := by
  exact ⟨by decide, by decide, by decide⟩

/-! ## C3 — presence-online broadcast -/

/-- On every successful authenticate the handler broadcasts user_online
unconditionally: the userSockets.has check only decides whether to create the
socket set, never whether to emit. -/
theorem authenticate_success_emits (st : ServerState) (db : DB) (sid : SocketId)
    (uid : UserId) (user : PublicUser) (h1 : db.getUserById uid = some user)
    (h2 : user.is_banned = false) :
    (authenticate st db sid (some uid)).2.2.1 =
      [Emit.toSocket sid (Event.authenticated true user.is_admin none),
       Emit.toAll (Event.user_online user.id user.username user.avatar_color
         user.avatar_emoji user.avatar_image),
       Emit.toSocket sid (Event.users_list db.getAllUsers)] := by
  simp [authenticate, h1, h2]

/-- C3 (amended): the user_online broadcast is emitted on every successful
authenticate of a non-banned identity, for any prior in-memory state — in
particular also when the identity already has live connections, not only on
the 0→1 edge. -/
theorem user_online_on_every_authenticate (st : ServerState) (db : DB) (sid : SocketId)
    (uid : UserId) (user : PublicUser) (h1 : db.getUserById uid = some user)
    (h2 : user.is_banned = false) :
    (authenticate st db sid (some uid)).2.2.1 =
      [Emit.toSocket sid (Event.authenticated true user.is_admin none),
       Emit.toAll (Event.user_online user.id user.username user.avatar_color
         user.avatar_emoji user.avatar_image),
       Emit.toSocket sid (Event.users_list db.getAllUsers)] :=
  authenticate_success_emits st db sid uid user h1 h2

/-- A state in which identity 1 already has the live connection "s1". -/
def stOneConn : ServerState :=
  ⟨fun x => if x = 1 then some ["s1"] else none, fun _ => []⟩

/-- Witness for C3 (amended): with connection "s1" already live for user 1, a
second authenticate still emits user_online. -/
theorem user_online_on_every_authenticate_witness :
    (authenticate stOneConn sampleDb "s2" (some 1)).2.2.1 =
      [Emit.toSocket "s2" (Event.authenticated true false none),
       Emit.toAll (Event.user_online 1 "alice" "#7289da" "" none),
       Emit.toSocket "s2" (Event.users_list sampleDb.getAllUsers)] :=
  user_online_on_every_authenticate stOneConn sampleDb "s2" 1 alicePub (by decide) rfl

/-- C3 counterexample: identity 1 already has one live connection, yet the
successful authenticate of its second connection "s2" emits the user_online
broadcast again, contradicting the claim that no user_online is emitted beyond
the 0→1 edge. -/
theorem user_online_second_connection_counterexample :
    stOneConn.userSockets 1 = some ["s1"] ∧
    Emit.toAll (Event.user_online 1 "alice" "#7289da" "" none) ∈
      (authenticate stOneConn sampleDb "s2" (some 1)).2.2.1 := by
  exact ⟨rfl, by decide⟩

/-! ## C10 — banned authenticate -/

/-- C10 (amended): authenticate with a valid credential for a banned identity
emits only the banned notice and force-closes nothing — the transport stays
open; authenticate with an invalid credential reports failure through a
negative authenticated acknowledgment, likewise without closing the
transport. -/
theorem banned_notice_without_disconnect (st : ServerState) (db : DB) (sid : SocketId) :
    (∀ (uid : UserId) (user : PublicUser), db.getUserById uid = some user →
      user.is_banned = true →
      authenticate st db sid (some uid) =
        (st, none, [Emit.toSocket sid Event.banned], [])) ∧
    authenticate st db sid none =
      (st, none,
       [Emit.toSocket sid (Event.authenticated false false (some "Invalid token"))], []) := by
  constructor
  · intro uid user h1 h2
    simp [authenticate, h1, h2]
  · rfl

/-- A store holding a single banned identity. -/
def bannedDb : DB := ⟨[⟨1, "eve", "h", "#7289da", "", none, false, true⟩], [], [], 1, 0⟩

/-- Witness for C10 (amended) at the concrete banned identity and at an invalid
credential. -/
theorem banned_notice_without_disconnect_witness :
    authenticate emptyState bannedDb "s2" (some 1) =
      (emptyState, none, [Emit.toSocket "s2" Event.banned], []) ∧
    authenticate emptyState bannedDb "s2" none =
      (emptyState, none,
       [Emit.toSocket "s2" (Event.authenticated false false (some "Invalid token"))], []) := by
  have h := banned_notice_without_disconnect emptyState bannedDb "s2"
  exact ⟨h.1 1 ⟨1, "eve", "#7289da", "", none, false, true⟩ (by decide) rfl, h.2⟩

/-- C10 counterexample: at a concrete banned identity the handler does emit the
banned notice, but the list of force-closed sockets is empty — the transport is
not disconnected, refuting the claimed force-close. -/
theorem banned_authenticate_not_closed_counterexample :
    (authenticate emptyState bannedDb "s" (some 1)).2.2.1 = [Emit.toSocket "s" Event.banned] ∧
    (authenticate emptyState bannedDb "s" (some 1)).2.2.2 = [] := by
  exact ⟨by decide, by decide⟩

/-! ## C2 — offline exactly on last close -/

theorem closeSeq_cons (u : PublicUser) (st : ServerState) (sid : SocketId)
    (rest : List SocketId) :
    closeSeq u st (sid :: rest) =
      ((closeSeq u (disconnectHandler st (some u) sid).1 rest).1,
       (disconnectHandler st (some u) sid).2 ::
         (closeSeq u (disconnectHandler st (some u) sid).1 rest).2) := rfl

/-- C2: for an identity whose live-connection set is `l`, closing those
connections one at a time (in any order) emits nothing at all on each close
but the last, and exactly one user_offline broadcast on the last close. -/
theorem user_offline_exactly_on_last_close (u : PublicUser) :
    ∀ (sids l : List SocketId) (st : ServerState),
      st.userSockets u.id = some l → l.Perm sids → sids ≠ [] →
      (closeSeq u st sids).2 =
        List.replicate (sids.length - 1) [] ++ [[Emit.toAll (Event.user_offline u.id)]] := by
  intro sids
  induction sids with
  | nil =>
    intro l st _ _ h
    exact absurd rfl h
  | cons s rest ih =>
    intro l st hl hperm _
    cases rest with
    | nil =>
      have hsingle : l = [s] := List.perm_singleton.mp hperm
      subst hsingle
      simp [closeSeq, disconnectHandler, hl, List.erase_cons_head]
    | cons r rest' =>
      have hperm' : (l.erase s).Perm (r :: rest') := by
        have h0 := hperm.erase s
        rwa [List.erase_cons_head] at h0
      have hne : l.erase s ≠ [] := by
        intro h0
        have hlen := hperm'.length_eq
        rw [h0] at hlen
        simp at hlen
      obtain ⟨a, t, hat⟩ := List.exists_cons_of_ne_nil hne
      have hempty : (l.erase s).isEmpty = false := by rw [hat]; rfl
      have hstep : disconnectHandler st (some u) s =
          ({ st with userSockets :=
              fun x => if x = u.id then some (l.erase s) else st.userSockets x }, []) := by
        simp [disconnectHandler, hl, hempty]
      rw [closeSeq_cons, hstep]
      have hih := ih (l.erase s)
        { st with userSockets :=
            fun x => if x = u.id then some (l.erase s) else st.userSockets x }
        (by simp) hperm' (by simp)
      simp only [hih]
      simp [List.replicate_succ]

/-- A state in which identity 1 has the two live connections "a" and "b". -/
def stTwoConn : ServerState :=
  ⟨fun x => if x = 1 then some ["a", "b"] else none, fun _ => []⟩

/-- Witness for C2: identity 1 has connections a and b; closing b then a emits
nothing on the first close and exactly the user_offline broadcast on the
second. -/
theorem user_offline_exactly_on_last_close_witness :
    (closeSeq alicePub stTwoConn ["b", "a"]).2 =
      [[], [Emit.toAll (Event.user_offline 1)]] := by
  have h := user_offline_exactly_on_last_close alicePub ["b", "a"] ["a", "b"] stTwoConn
    rfl (by decide) (by decide)
  simpa using h

/-! ## C4 / C5 — room subscription and delivery -/

theorem mem_addRoom_self (l : List String) (room : String) : room ∈ addRoom l room := by
  unfold addRoom
  by_cases h : room ∈ l
  · simp [h]
  · simp [h]

theorem mem_addRoom_of_mem (l : List String) (r room : String) (h : r ∈ l) :
    r ∈ addRoom l room := by
  unfold addRoom
  by_cases h2 : room ∈ l
  · simp [h2, h]
  · simp [h2]
    exact Or.inl h

/-- Joining further sockets to further rooms never removes an existing
subscription. -/
theorem joinAll_preserve (room : String) :
    ∀ (l : List SocketId) (rs : SocketId → List String) (s : SocketId) (r : String),
      r ∈ rs s → r ∈ joinAll rs room l s := by
  intro l
  induction l with
  | nil => intro rs s r h; exact h
  | cons a t ih =>
    intro rs s r h
    show r ∈ joinAll (fun x => if x = a then addRoom (rs a) room else rs x) room t s
    apply ih
    by_cases hsa : s = a
    · subst hsa
      simp only [if_pos rfl]
      exact mem_addRoom_of_mem _ _ _ h
    · simpa [hsa] using h

/-- Every socket in the joined list ends up subscribed to the room. -/
theorem joinAll_mem_self (room : String) :
    ∀ (l : List SocketId) (rs : SocketId → List String) (s : SocketId),
      s ∈ l → room ∈ joinAll rs room l s := by
  intro l
  induction l with
  | nil => intro rs s h; cases h
  | cons a t ih =>
    intro rs s h
    rcases List.mem_cons.mp h with h1 | h2
    · subst h1
      show room ∈ joinAll (fun x => if x = s then addRoom (rs s) room else rs x) room t s
      apply joinAll_preserve
      simp [mem_addRoom_self]
    · exact ih _ s h2

/-- The full message record the send_message handler assembles and broadcasts
on a successful send. -/
def sentRecord (db : DB) (u : PublicUser) (room : String)
    (content imageData : Option String) : MessageData :=
  { id := db.nextMessageId, sender_id := u.id, sender_username := u.username,
    avatar_color := u.avatar_color, avatar_emoji := u.avatar_emoji,
    avatar_image := u.avatar_image, room := room, content := jsTrim (content.getD ""),
    image_data := jsOrNull imageData, edited := false, reactions := [],
    created_at := db.now }

/-- The shape of a successful dm send: the guards pass, the message is
persisted, every live socket of the computed recipient is joined to the room,
and the full record is broadcast to the room. -/
theorem send_message_dm_success (st : ServerState) (db : DB) (u : PublicUser)
    (sid : SocketId) (room : String) (content imageData : Option String) (a b : Nat)
    (hdm : startsWithDm room = true) (hids : dmIds room = (some a, some b))
    (hmem : dmMember u.id room = true)
    (hc : (!(jsTruthy (content.map jsTrim)) && !(jsTruthy imageData)) = false)
    (hsize : (jsTruthy imageData && decide ((imageData.getD "").length > 3000000)) = false) :
    send_message false st db (some u) sid room content imageData =
      ({ st with rooms := joinAll st.rooms room ((st.userSockets (if a = u.id then b else a)).getD []) },
       (db.saveMessage u.id room (jsTrim (content.getD "")) (jsOrNull imageData)).1,
       [Emit.toRoom room (Event.message (sentRecord db u room content imageData))]) := by
  have h3 : (startsWithDm room && !dmMember u.id room) = false := by
    simp [hdm, hmem]
  show (if (!(jsTruthy (content.map jsTrim)) && !(jsTruthy imageData)) = true then (st, db, [])
    else if (jsTruthy imageData && decide ((imageData.getD "").length > 3000000)) = true then
      (st, db, [Emit.toSocket sid (Event.error "Image is too large. Please use a smaller image.")])
    else if (startsWithDm room && !dmMember u.id room) = true then (st, db, [])
    else if false = true then (st, db, [])
    else
      let r := db.saveMessage u.id room (jsTrim (content.getD "")) (jsOrNull imageData)
      let md : MessageData :=
        { id := r.2.1, sender_id := u.id, sender_username := u.username,
          avatar_color := u.avatar_color, avatar_emoji := u.avatar_emoji,
          avatar_image := u.avatar_image, room := room,
          content := jsTrim (content.getD ""), image_data := jsOrNull imageData,
          edited := false, reactions := [], created_at := r.2.2 }
      let st' :=
        if startsWithDm room = true then
          let ids := dmIds room
          let recipient := if ids.1 = some u.id then ids.2 else ids.1
          match recipient with
          | some rcp =>
            { st with rooms := joinAll st.rooms room ((st.userSockets rcp).getD []) }
          | none => st
        else st
      (st', r.1, [Emit.toRoom room (Event.message md)])) = _
  rw [hc, hsize, h3, hdm]
  simp only [Bool.false_eq_true, if_false, if_true]
  rw [hids]
  rcases eq_or_ne u.id a with hua | hua
  · simp [sentRecord, hua, DB.saveMessage]
  · have hax : ¬ ((some a : Option Nat) = some u.id) := by
      intro hx
      exact hua (Option.some.injEq _ _ ▸ hx).symm
    have hau : a ≠ u.id := fun h => hua h.symm
    simp [sentRecord, hax, DB.saveMessage, hau]

/-- C4: a valid send into a pairwise room by one member joins every live
connection of the other member to the room before the broadcast, so each such
connection is subscribed in the post-handler state and receives the message
event — even if it never issued join_room or get_messages for that room. -/
theorem dm_recipient_auto_subscribed (st : ServerState) (db : DB) (u : PublicUser)
    (sid : SocketId) (room : String) (content imageData : Option String) (a b : Nat)
    (hdm : startsWithDm room = true) (hids : dmIds room = (some a, some b))
    (humem : u.id = a ∨ u.id = b)
    (hvalid : jsTruthy (content.map jsTrim) = true ∨ jsTruthy imageData = true)
    (hsize : (imageData.getD "").length ≤ 3000000) :
    ∃ md : MessageData,
      (send_message false st db (some u) sid room content imageData).2.2 =
        [Emit.toRoom room (Event.message md)] ∧
      ∀ s ∈ (st.userSockets (if a = u.id then b else a)).getD [],
        room ∈ (send_message false st db (some u) sid room content imageData).1.rooms s ∧
        receives (send_message false st db (some u) sid room content imageData).1
          (send_message false st db (some u) sid room content imageData).2.2 s
          (Event.message md) = true := by
  have hmem : dmMember u.id room = true := by
    rcases humem with h | h <;> simp [dmMember, hids, h]
  have hc : (!(jsTruthy (content.map jsTrim)) && !(jsTruthy imageData)) = false := by
    rcases hvalid with h | h <;> simp [h]
  have hsz : (jsTruthy imageData && decide ((imageData.getD "").length > 3000000)) = false := by
    have : ¬ ((imageData.getD "").length > 3000000) := by omega
    simp [this]
  rw [send_message_dm_success st db u sid room content imageData a b hdm hids hmem hc hsz]
  refine ⟨sentRecord db u room content imageData, rfl, ?_⟩
  intro s hs
  constructor
  · exact joinAll_mem_self room _ st.rooms s hs
  · simp [receives]
    exact joinAll_mem_self room _ st.rooms s hs

/-- C5: join_room subscribes any authenticated connection to any requested
room string with no authorization check and no acknowledgment; consequently an
identity outside a pairwise room's two encoded ids that has joined the room
this way receives every subsequent message broadcast into it. -/
theorem join_room_no_authorization :
    (∀ (st : ServerState) (u : PublicUser) (sid : SocketId) (room : String),
      (join_room st (some u) sid room).2 = [] ∧
      room ∈ (join_room st (some u) sid room).1.rooms sid) ∧
    (∀ (st : ServerState) (db : DB) (u : PublicUser) (sidSender sidE : SocketId)
      (room : String) (content imageData : Option String) (a b : Nat),
      room ∈ st.rooms sidE →
      startsWithDm room = true → dmIds room = (some a, some b) → (u.id = a ∨ u.id = b) →
      (jsTruthy (content.map jsTrim) = true ∨ jsTruthy imageData = true) →
      (imageData.getD "").length ≤ 3000000 →
      ∃ md : MessageData,
        (send_message false st db (some u) sidSender room content imageData).2.2 =
          [Emit.toRoom room (Event.message md)] ∧
        receives (send_message false st db (some u) sidSender room content imageData).1
          (send_message false st db (some u) sidSender room content imageData).2.2 sidE
          (Event.message md) = true) := by
  constructor
  · intro st u sid room
    refine ⟨rfl, ?_⟩
    simp [join_room, mem_addRoom_self]
  · intro st db u sidSender sidE room content imageData a b hsub hdm hids humem hvalid hsize
    have hmem : dmMember u.id room = true := by
      rcases humem with h | h <;> simp [dmMember, hids, h]
    have hc : (!(jsTruthy (content.map jsTrim)) && !(jsTruthy imageData)) = false := by
      rcases hvalid with h | h <;> simp [h]
    have hsz : (jsTruthy imageData && decide ((imageData.getD "").length > 3000000)) = false := by
      have : ¬ ((imageData.getD "").length > 3000000) := by omega
      simp [this]
    rw [send_message_dm_success st db u sidSender room content imageData a b hdm hids hmem hc hsz]
    refine ⟨sentRecord db u room content imageData, rfl, ?_⟩
    simp [receives]
    exact joinAll_preserve room _ st.rooms sidE room hsub

/-- A state in which the dm recipient (user 2) has two live connections that
have never joined any room. -/
def stBobConn : ServerState :=
  ⟨fun x => if x = 2 then some ["b1", "b2"] else none, fun _ => []⟩

/-- Witness for C4: alice (id 1) sends into "dm:1:2"; both of bob's connections
get subscribed and receive the message event. -/
theorem dm_recipient_auto_subscribed_witness :
    ∃ md : MessageData,
      (send_message false stBobConn sampleDb (some alicePub) "s1" "dm:1:2"
        (some "hi") none).2.2 = [Emit.toRoom "dm:1:2" (Event.message md)] ∧
      ∀ s ∈ (stBobConn.userSockets (if 1 = alicePub.id then 2 else 1)).getD [],
        "dm:1:2" ∈ (send_message false stBobConn sampleDb (some alicePub) "s1" "dm:1:2"
          (some "hi") none).1.rooms s ∧
        receives (send_message false stBobConn sampleDb (some alicePub) "s1" "dm:1:2"
          (some "hi") none).1
          (send_message false stBobConn sampleDb (some alicePub) "s1" "dm:1:2"
            (some "hi") none).2.2 s (Event.message md) = true :=
  dm_recipient_auto_subscribed stBobConn sampleDb alicePub "s1" "dm:1:2" (some "hi") none 1 2
    (by decide) (by decide) (Or.inl rfl) (Or.inl (by decide)) (by decide)

/-- The state after the outsider (user 3, connection "s3") issues join_room for
"dm:1:2". -/
def stJoined : ServerState := (join_room emptyState (some modPub) "s3" "dm:1:2").1

/-- Witness for C5: after user 3 — not a member of the 1–2 pair — joins
"dm:1:2" via join_room, a message alice sends into that room is received by
user 3's connection. -/
theorem join_room_no_authorization_witness :
    ∃ md : MessageData,
      (send_message false stJoined sampleDb (some alicePub) "s1" "dm:1:2"
        (some "hi") none).2.2 = [Emit.toRoom "dm:1:2" (Event.message md)] ∧
      receives (send_message false stJoined sampleDb (some alicePub) "s1" "dm:1:2"
        (some "hi") none).1
        (send_message false stJoined sampleDb (some alicePub) "s1" "dm:1:2"
          (some "hi") none).2.2 "s3" (Event.message md) = true :=
  join_room_no_authorization.2 stJoined sampleDb alicePub "s1" "s3" "dm:1:2"
    (some "hi") none 1 2 (by decide) (by decide) (by decide) (Or.inl rfl)
    (Or.inl (by decide)) (by decide)

/-! ## C9 — admin ban -/

theorem banStep_mono (target : PublicUser) :
    ∀ (l : List SocketId) (acc : ServerState × List Emit × List SocketId) (e : Emit),
      e ∈ acc.2.1 → e ∈ (l.foldl (banStep target) acc).2.1 := by
  intro l
  induction l with
  | nil => intro acc e h; exact h
  | cons a t ih =>
    intro acc e h
    rw [List.foldl_cons]
    apply ih
    exact List.mem_append.mpr (Or.inl (List.mem_append.mpr (Or.inl h)))

theorem banStep_mono_closed (target : PublicUser) :
    ∀ (l : List SocketId) (acc : ServerState × List Emit × List SocketId) (sid : SocketId),
      sid ∈ acc.2.2 → sid ∈ (l.foldl (banStep target) acc).2.2 := by
  intro l
  induction l with
  | nil => intro acc sid h; exact h
  | cons a t ih =>
    intro acc sid h
    rw [List.foldl_cons]
    apply ih
    exact List.mem_append.mpr (Or.inl h)

/-- Every socket the ban loop visits gets the banned notice recorded among the
emissions and ends up in the force-closed list. -/
theorem banFold_mem (target : PublicUser) :
    ∀ (l : List SocketId) (acc : ServerState × List Emit × List SocketId) (sid : SocketId),
      sid ∈ l →
      Emit.toSocket sid Event.banned ∈ (l.foldl (banStep target) acc).2.1 ∧
      sid ∈ (l.foldl (banStep target) acc).2.2 := by
  intro l
  induction l with
  | nil => intro acc sid h; cases h
  | cons a t ih =>
    intro acc sid h
    rcases List.mem_cons.mp h with h1 | h2
    · subst h1
      rw [List.foldl_cons]
      constructor
      · apply banStep_mono
        exact List.mem_append.mpr (Or.inl (List.mem_append.mpr (Or.inr (by simp))))
      · apply banStep_mono_closed
        exact List.mem_append.mpr (Or.inr (by simp))
    · rw [List.foldl_cons]
      exact ih _ sid h2

/-- setBanned rewrites only the banned flag of the row with the given id, so a
lookup by that id afterwards returns the same public row with the new flag. -/
theorem getUserById_setBanned (db : DB) (t : UserId) (b : Bool) (pu : PublicUser)
    (h : db.getUserById t = some pu) :
    (db.setBanned t b).getUserById t = some { pu with is_banned := b } := by
  unfold DB.getUserById at h
  obtain ⟨row, hrow, hpu⟩ := Option.map_eq_some'.mp h
  unfold DB.getUserById DB.setBanned
  rw [List.find?_map (fun u : UserRow =>
    if u.id == t then { u with is_banned := b } else u) db.users]
  have hpf : ((fun u : UserRow => u.id == t) ∘ (fun u : UserRow =>
      if u.id == t then { u with is_banned := b } else u)) =
      fun u : UserRow => u.id == t := by
    funext x
    simp only [Function.comp_apply]
    by_cases hx : (x.id == t) = true
    · rw [if_pos hx]
    · rw [if_neg hx]
  rw [hpf, hrow]
  have hid : (row.id == t) = true := by
    have hq := List.find?_some hrow
    simpa using hq
  simp only [Option.map_some']
  rw [if_pos hid, ← hpu]
  rfl

/-- The same for a lookup by username, when the found row carries the updated
id. -/
theorem getUserByUsername_setBanned (db : DB) (un : String) (t : UserId) (b : Bool)
    (row : UserRow) (h : db.getUserByUsername un = some row) (hid : row.id = t) :
    (db.setBanned t b).getUserByUsername un = some { row with is_banned := b } := by
  unfold DB.getUserByUsername at h
  unfold DB.getUserByUsername DB.setBanned
  rw [List.find?_map (fun u : UserRow =>
    if u.id == t then { u with is_banned := b } else u) db.users]
  have hpf : ((fun u : UserRow => u.username == un) ∘ (fun u : UserRow =>
      if u.id == t then { u with is_banned := b } else u)) =
      fun u : UserRow => u.username == un := by
    funext x
    simp only [Function.comp_apply]
    by_cases hx : (x.id == t) = true
    · rw [if_pos hx]
    · rw [if_neg hx]
  rw [hpf, h]
  have hidb : (row.id == t) = true := by simp [hid]
  simp only [Option.map_some']
  rw [if_pos hidb]

/-- A banned account cannot log in: with any password and any credential
checker, the login route answers with the banned error. -/
theorem login_banned (db : DB) (cmp : String → String → Bool) (un pw : String)
    (row : UserRow) (h : db.getUserByUsername un = some row)
    (hb : row.is_banned = true) (hun : un ≠ "") (hpw : pw ≠ "") :
    login db cmp un pw = LoginResult.bannedResp := by
  simp [login, hun, hpw, h, hb]

/-- C9: an admin-issued ban of a different, existing, not-yet-banned identity
flips the target's banned flag in the store, emits a banned notice to every
live connection of the target and force-closes each of them, and any
subsequent login by that identity is rejected with the banned error. -/
theorem ban_disconnects_and_blocks_login (st : ServerState) (db : DB)
    (actorId targetId : UserId) (actor target : PublicUser)
    (hA : db.getUserById actorId = some actor) (hadm : actor.is_admin = true)
    (hne : targetId ≠ actorId) (hT : db.getUserById targetId = some target)
    (htb : target.is_banned = false) :
    (banRoute st db actorId targetId).2.2.2.2 = BanResponse.ok true ∧
    (banRoute st db actorId targetId).2.1.getUserById targetId =
      some { target with is_banned := true } ∧
    (∀ sid ∈ (st.userSockets targetId).getD [],
      Emit.toSocket sid Event.banned ∈ (banRoute st db actorId targetId).2.2.1 ∧
      sid ∈ (banRoute st db actorId targetId).2.2.2.1) ∧
    (∀ (un pw : String) (cmp : String → String → Bool) (row : UserRow),
      un ≠ "" → pw ≠ "" → db.getUserByUsername un = some row → row.id = targetId →
      login (banRoute st db actorId targetId).2.1 cmp un pw = LoginResult.bannedResp) := by
  have hshape : banRoute st db actorId targetId =
      ((((st.userSockets targetId).getD []).foldl (banStep target)
          (st, ([] : List Emit), ([] : List SocketId))).1,
       db.setBanned targetId true,
       (((st.userSockets targetId).getD []).foldl (banStep target)
          (st, ([] : List Emit), ([] : List SocketId))).2.1 ++
         [Emit.toAll (Event.users_list (db.setBanned targetId true).getAllUsers)],
       (((st.userSockets targetId).getD []).foldl (banStep target)
          (st, ([] : List Emit), ([] : List SocketId))).2.2,
       BanResponse.ok true) := by
    simp [banRoute, hA, hadm, hne, hT, htb]
  refine ⟨by rw [hshape], ?_, ?_, ?_⟩
  · rw [hshape]
    exact getUserById_setBanned db targetId true target hT
  · intro sid hs
    have hm := banFold_mem target ((st.userSockets targetId).getD [])
      (st, ([] : List Emit), ([] : List SocketId)) sid hs
    rw [hshape]
    exact ⟨List.mem_append.mpr (Or.inl hm.1), hm.2⟩
  · intro un pw cmp row hun hpw hrow hrid
    rw [hshape]
    exact login_banned _ cmp un pw { row with is_banned := true }
      (getUserByUsername_setBanned db un targetId true row hrow hrid) rfl hun hpw

/-- Store with an ordinary user bob (id 2) and an admin (id 9). -/
def banDb : DB :=
  ⟨[⟨2, "bob", "h2", "#7289da", "", none, false, false⟩,
    ⟨9, "root", "h9", "#000000", "", none, true, false⟩], [], [], 1, 0⟩

/-- State in which bob (id 2) has the two live connections "x" and "y". -/
def stBan : ServerState :=
  ⟨fun n => if n = 2 then some ["x", "y"] else none, fun _ => []⟩

/-- Witness for C9: the admin (id 9) bans bob (id 2); both of bob's live
connections get the banned notice and are force-closed, and bob's subsequent
login attempt is rejected with the banned error. -/
theorem ban_disconnects_and_blocks_login_witness :
    Emit.toSocket "x" Event.banned ∈ (banRoute stBan banDb 9 2).2.2.1 ∧
    "x" ∈ (banRoute stBan banDb 9 2).2.2.2.1 ∧
    Emit.toSocket "y" Event.banned ∈ (banRoute stBan banDb 9 2).2.2.1 ∧
    "y" ∈ (banRoute stBan banDb 9 2).2.2.2.1 ∧
    login (banRoute stBan banDb 9 2).2.1 (fun _ _ => true) "bob" "pw" =
      LoginResult.bannedResp := by
  have h := ban_disconnects_and_blocks_login stBan banDb 9 2
    ⟨9, "root", "#000000", "", none, true, false⟩
    ⟨2, "bob", "#7289da", "", none, false, false⟩
    (by decide) rfl (by decide) (by decide) rfl
  have hx := h.2.2.1 "x" (by decide)
  have hy := h.2.2.1 "y" (by decide)
  have hl := h.2.2.2 "bob" "pw" (fun _ _ => true)
    ⟨2, "bob", "h2", "#7289da", "", none, false, false⟩
    (by decide) (by decide) (by decide) rfl
  exact ⟨hx.1, hx.2, hy.1, hy.2, hl⟩

end MessagingApp
